import Mathlib

/-!
Shallow embedding of the transactional session-scope mechanism of this
repository, translated from `src/src/session_context.py` (primary variant,
suffix `SC`) and `src/src/session.py` (earlier variant, suffix `SY`).

The embedding models:
* `get_db` — the two-phase generator factory (engine resolution, session
  open + begin, then commit/rollback + close on resumption);
* `_SessionScopeMaker.__call__` — the per-call decorator pipeline
  (`_recreate_cm`, `__enter__`, `_assign_session`, body, `__exit__`);
* `_SessionScopeMaker.__exit__` — attribute release before finalization;
* `_get_session_annotation`, `_assign_session`,
  `_assign_session_to_argument`, `_assign_session_to_instance` in both
  variants.

Python exceptions are modelled as an `Err` sum type, Python truthiness as an
explicit `isTruthy` function on the value model, Python dicts
(`kwargs`, `__kwdefaults__`, instance `__dict__`) as association lists, and
fresh SQLAlchemy `Session` construction as drawing a fresh identifier from a
counter threaded through calls.
-/

/-- SQLAlchemy engines are opaque here; only identity and truthiness matter.
A bound `Engine` object is always truthy, `None` is falsy. -/
abbrev Engine := Nat

/-- Type-annotation values, as found in `__annotations__`: the class
`Session` itself, a stringized (postponed / PEP 563) form, or anything
else. Discrimination `val == Session` matches only `session`. -/
inductive Ann
  | session
  | strAnn
  | other
deriving DecidableEq, Repr

/-- Python runtime values, modelled just finely enough for the scope
machinery: session handles carry a numeric identity, `None` and `Ellipsis`
are distinguished sentinels, anything else is abstracted to its truthiness. -/
inductive Value
  | vSession (id : Nat)
  | vNone
  | vEllipsis
  | vOther (t : Bool)
deriving DecidableEq, Repr

/-- Python truthiness of a modelled value: `None` is falsy, a `Session`
object and `Ellipsis` are truthy, other objects carry their own flag. -/
def Value.isTruthy : Value → Bool
  | .vSession _ => true
  | .vNone => false
  | .vEllipsis => true
  | .vOther t => t

/-- Python dict update `d[k] = v`: replace the binding in place or append. -/
def dictSet : List (String × Value) → String → Value → List (String × Value)
  | [], k, v => [(k, v)]
  | (k0, v0) :: rest, k, v =>
    if k0 = k then (k, v) :: rest else (k0, v0) :: dictSet rest k v

/-- Python `delattr` / dict deletion of key `k`. -/
def dictDel : List (String × Value) → String → List (String × Value)
  | [], _ => []
  | (k0, v0) :: rest, k =>
    if k0 = k then rest else (k0, v0) :: dictDel rest k

/-- A class instance: its `__annotations__` (`anns`), its currently set
instance attributes (`attrs`, so `hasattr` is key membership), and its
truthiness `bool(instance)` (an object may define `__bool__`/`__len__`). -/
structure PyInstance where
  anns : List (String × Ann)
  attrs : List (String × Value)
  truthy : Bool
deriving DecidableEq, Repr

/-- A target callable: its `__annotations__` and its `__kwdefaults__`
(defaults of keyword-only parameters, after the `*`). -/
structure FuncDecl where
  anns : List (String × Ann)
  kwdefaults : List (String × Value)
deriving DecidableEq, Repr

/-- Exceptions raised by the scope machinery, named as the specification
names them; each corresponds to a concrete `RuntimeError` /
`NotImplementedError` raise site in the source. A `bodyError` is an
exception escaping the wrapped body, identified by a code. -/
inductive Err
  | configurationError
  | annotationError
  | unsupportedAnnotationForm
  | ellipsisDefaultError
  | directInjectionError
  | bindingConflictError
  | bodyError (code : Nat)
deriving DecidableEq, Repr

/-- Result of `_SessionScopeMaker._get_session_annotation` in
`session_context.py`. -/
inductive ResolveResult
  | ok (name : String)
  | errStringized
  | errNone
  | errMany
deriving DecidableEq, Repr

/-- `_get_session_annotation` of `session_context.py` (lines 147-176):
raise `NotImplementedError` if any annotation value is a string, else
collect the names annotated with `Session`; zero or more than one is a
`RuntimeError`, otherwise return the single name. -/
def getSessionAnnotationSC (anns : List (String × Ann)) : ResolveResult :=
  if anns.any (fun p => p.2 == Ann.strAnn) then .errStringized
  else
    match (anns.filter (fun p => p.2 == Ann.session)).map Prod.fst with
    | [] => .errNone
    | [a] => .ok a
    | _ => .errMany

/-- `_get_session_annotation` of `session.py` (lines 79-85): just the set of
names whose annotation equals `Session`; stringized annotations are
compared with `== Session` and silently skipped. -/
def getSessionAnnotationSY (anns : List (String × Ann)) : List String :=
  (anns.filter (fun p => p.2 == Ann.session)).map Prod.fst

/-- Outcome of `_assign_session`: the handle went into the call's keyword
arguments (argument name and updated `kwargs`), or onto the bound instance
(updated instance and the memorized attribute name). -/
inductive Binding
  | toKwargs (argName : String) (kwargs : List (String × Value))
  | toInstance (inst : PyInstance) (attrName : String)
deriving DecidableEq, Repr

/-- `_assign_session_to_argument` of `session_context.py` (lines 203-212):
resolve the single `Session`-annotated argument name; its keyword-only
default must be `Ellipsis`; a truthy caller-supplied value for it is
refused; otherwise `kwargs[arg_name] = session`. -/
def assignToArgumentSC (func : FuncDecl) (sid : Nat)
    (kwargs : List (String × Value)) : Except Err Binding :=
  match getSessionAnnotationSC func.anns with
  | .errStringized => .error .unsupportedAnnotationForm
  | .errNone => .error .annotationError
  | .errMany => .error .annotationError
  | .ok argName =>
    if func.kwdefaults.lookup argName ≠ some Value.vEllipsis then
      .error .ellipsisDefaultError
    else if ((kwargs.lookup argName).getD Value.vNone).isTruthy then
      .error .directInjectionError
    else
      .ok (.toKwargs argName (dictSet kwargs argName (Value.vSession sid)))

/-- `_assign_session_to_instance` of `session_context.py` (lines 191-201):
resolve the single `Session`-annotated attribute; if the instance already
has that attribute set, refuse (reentrancy guard); otherwise memorize the
instance and attribute name and set the attribute. -/
def assignToInstanceSC (inst : PyInstance) (sid : Nat) : Except Err Binding :=
  match getSessionAnnotationSC inst.anns with
  | .errStringized => .error .unsupportedAnnotationForm
  | .errNone => .error .annotationError
  | .errMany => .error .annotationError
  | .ok attrName =>
    if (inst.attrs.lookup attrName).isSome then
      .error .bindingConflictError
    else
      .ok (.toInstance
        { inst with attrs := dictSet inst.attrs attrName (Value.vSession sid) }
        attrName)

/-- `_assign_session` of `session_context.py` (lines 178-189): bind the
call's arguments and look for one named `self`; when absent, take the
argument path, otherwise the instance path. -/
def assignSessionSC (func : FuncDecl) (sid : Nat)
    (selfInstance : Option PyInstance) (kwargs : List (String × Value)) :
    Except Err Binding :=
  match selfInstance with
  | none => assignToArgumentSC func sid kwargs
  | some inst => assignToInstanceSC inst sid

/-- `_assign_session_to_argument` of `session.py` (lines 123-131): like the
`SC` version, but the resolved argument name is passed in by the caller. -/
def assignToArgumentSY (func : FuncDecl) (sid : Nat)
    (kwargs : List (String × Value)) (argName : String) : Except Err Binding :=
  if func.kwdefaults.lookup argName ≠ some Value.vEllipsis then
    .error .ellipsisDefaultError
  else if ((kwargs.lookup argName).getD Value.vNone).isTruthy then
    .error .directInjectionError
  else
    .ok (.toKwargs argName (dictSet kwargs argName (Value.vSession sid)))

/-- `_assign_session_to_instance` of `session.py` (lines 105-121). -/
def assignToInstanceSY (inst : PyInstance) (sid : Nat) : Except Err Binding :=
  match getSessionAnnotationSY inst.anns with
  | [] => .error .annotationError
  | [attrName] =>
    if (inst.attrs.lookup attrName).isSome then
      .error .bindingConflictError
    else
      .ok (.toInstance
        { inst with attrs := dictSet inst.attrs attrName (Value.vSession sid) }
        attrName)
  | _ => .error .annotationError

/-- `_assign_session` of `session.py` (lines 87-103): parameter-first; only
when no `Session`-annotated parameter exists does it fall back to the first
positional argument as the instance (error when there is none). -/
def assignSessionSY (func : FuncDecl) (sid : Nat)
    (args0 : Option PyInstance) (kwargs : List (String × Value)) :
    Except Err Binding :=
  match getSessionAnnotationSY func.anns with
  | [] =>
    match args0 with
    | none => .error .annotationError
    | some inst => assignToInstanceSY inst sid
  | [argName] => assignToArgumentSY func sid kwargs argName
  | _ => .error .annotationError

/-- The immutable template a `_SessionScopeMaker` carries: the `kwds`
captured at decoration time. `bindArg = none` models a `kwds` dict without
the `bind` key (so `setdefault` fills in the module-global engine at enter
time); `bindArg = some b` models an explicitly passed `bind=b`. -/
structure Template where
  bindArg : Option (Option Engine)
deriving DecidableEq, Repr

/-- Engine resolution inside `get_db` of `session_context.py` (lines 53-73):
`session_kwargs.setdefault('bind', engine)` followed by the truthiness
check on the result. -/
def resolveBind (t : Template) (globalEngine : Option Engine) : Option Engine :=
  match t.bindArg with
  | none => globalEngine
  | some b => b

/-- Observable factory and binding events of one decorated call, in
execution order. -/
inductive Event
  | openSession (id : Nat)
  | commit
  | rollback
  | closeSession
  | bindAttr (attr : String) (id : Nat)
  | unbindAttr (attr : String)
  | bindKwarg (argName : String) (id : Nat)
deriving DecidableEq, Repr

/-- Phase 1 of `get_db`: resolve the engine at enter time; without one,
raise before any `Session` is constructed; with one, construct the session
and begin the transaction (the `openSession` event), then yield. -/
def scopeEnter (t : Template) (globalEngine : Option Engine) (fresh : Nat) :
    Except Err Nat × List Event :=
  match resolveBind t globalEngine with
  | none => (.error .configurationError, [])
  | some _ => (.ok fresh, [Event.openSession fresh])

/-- `_SessionScopeMaker.__exit__` (lines 118-127) combined with phase 2 of
`get_db`: when the memorized `_instance` is truthy, delete the bound
attribute first; then resume the generator, which commits on a clean exit
or rolls back on an exception, and closes the session either way. Returns
the emitted events and the instance's final state (when one was bound). -/
def sessionScopeExit (bound : Option (PyInstance × String)) (failure : Bool) :
    List Event × Option PyInstance :=
  let cleared :=
    match bound with
    | some (inst, a) =>
      if inst.truthy then
        ([Event.unbindAttr a], some { inst with attrs := dictDel inst.attrs a })
      else
        (([] : List Event), some inst)
    | none => ([], none)
  (cleared.1 ++ (if failure then [Event.rollback] else [Event.commit])
    ++ [Event.closeSession], cleared.2)

/-- What the wrapped body does once invoked: return a value or raise. -/
inductive BodyOutcome
  | ret (v : Value)
  | raiseExc (code : Nat)
deriving DecidableEq, Repr

/-- One invocation of a decorated callable: the callable's declaration, the
instance bound to a `self` parameter (when any), the caller's keyword
arguments, and what the body does when reached. -/
structure CallSpec where
  func : FuncDecl
  selfInstance : Option PyInstance
  kwargs : List (String × Value)
  bodyOutcome : BodyOutcome
deriving DecidableEq, Repr

instance {α β : Type} [DecidableEq α] [DecidableEq β] :
    DecidableEq (Except α β) := fun x y =>
  match x, y with
  | .error a, .error b =>
    if h : a = b then isTrue (by rw [h]) else isFalse (by simp [h])
  | .error _, .ok _ => isFalse (by simp)
  | .ok _, .error _ => isFalse (by simp)
  | .ok a, .ok b =>
    if h : a = b then isTrue (by rw [h]) else isFalse (by simp [h])

/-- Everything observable about one decorated call: the event trace, the
value returned or exception raised by the wrapper, the bound instance's
final state (when the call had one), and the session-identity counter
after the call. -/
structure CallOutcome where
  trace : List Event
  result : Except Err Value
  finalInstance : Option PyInstance
  nextFresh : Nat
deriving DecidableEq, Repr

/-- The decorator pipeline `inner` of `_SessionScopeMaker.__call__`
(`session_context.py` lines 129-145): recreate a fresh manager from the
template, enter it (running `get_db` up to its yield), perform
`_assign_session` inside the scope, invoke the body, and on the way out run
`__exit__` with the body's outcome; exceptions from assignment or body
drive rollback and propagate unchanged. -/
def decoratedCallSC (t : Template) (globalEngine : Option Engine)
    (spec : CallSpec) (fresh : Nat) : CallOutcome :=
  match scopeEnter t globalEngine fresh with
  | (.error e, ev) =>
    { trace := ev, result := .error e, finalInstance := spec.selfInstance,
      nextFresh := fresh }
  | (.ok sid, ev) =>
    match assignSessionSC spec.func sid spec.selfInstance spec.kwargs with
    | .error e =>
      let ex := sessionScopeExit none true
      { trace := ev ++ ex.1, result := .error e,
        finalInstance := spec.selfInstance, nextFresh := sid + 1 }
    | .ok (.toKwargs argName _) =>
      match spec.bodyOutcome with
      | .ret v =>
        let ex := sessionScopeExit none false
        { trace := ev ++ [Event.bindKwarg argName sid] ++ ex.1,
          result := .ok v, finalInstance := spec.selfInstance,
          nextFresh := sid + 1 }
      | .raiseExc c =>
        let ex := sessionScopeExit none true
        { trace := ev ++ [Event.bindKwarg argName sid] ++ ex.1,
          result := .error (.bodyError c), finalInstance := spec.selfInstance,
          nextFresh := sid + 1 }
    | .ok (.toInstance inst1 a) =>
      match spec.bodyOutcome with
      | .ret v =>
        let ex := sessionScopeExit (some (inst1, a)) false
        { trace := ev ++ [Event.bindAttr a sid] ++ ex.1,
          result := .ok v, finalInstance := ex.2, nextFresh := sid + 1 }
      | .raiseExc c =>
        let ex := sessionScopeExit (some (inst1, a)) true
        { trace := ev ++ [Event.bindAttr a sid] ++ ex.1,
          result := .error (.bodyError c), finalInstance := ex.2,
          nextFresh := sid + 1 }

theorem lookup_dictSet_self (d : List (String × Value)) (k : String) (v : Value) :
    (dictSet d k v).lookup k = some v := by
  induction d with
  | nil => simp [dictSet, List.lookup]
  | cons p rest ih =>
    obtain ⟨k0, v0⟩ := p
    by_cases h : k0 = k
    · simp [dictSet, h, List.lookup]
    · have hbeq : (k == k0) = false := beq_eq_false_iff_ne.mpr (Ne.symm h)
      simp [dictSet, h, List.lookup, hbeq, ih]

theorem dictDel_dictSet_of_lookup_none (d : List (String × Value))
    (k : String) (v : Value) (hd : d.lookup k = none) :
    dictDel (dictSet d k v) k = d := by
  induction d with
  | nil => simp [dictSet, dictDel]
  | cons p rest ih =>
    obtain ⟨k0, v0⟩ := p
    by_cases h : k = k0
    · simp [List.lookup, h, beq_iff_eq] at hd
    · have hbeq : (k == k0) = false := beq_eq_false_iff_ne.mpr h
      simp only [List.lookup, hbeq] at hd
      simp [dictSet, Ne.symm h, dictDel, ih hd]

theorem openSession_notMem_exitEvents (b : Option (PyInstance × String))
    (f : Bool) (i : Nat) :
    Event.openSession i ∉ (sessionScopeExit b f).1 := by
  rcases b with _ | ⟨inst, a⟩ <;> cases f <;>
    simp [sessionScopeExit] <;> split <;> simp

theorem bindKwarg_notMem_exitEvents (b : Option (PyInstance × String))
    (f : Bool) (n : String) (i : Nat) :
    Event.bindKwarg n i ∉ (sessionScopeExit b f).1 := by
  rcases b with _ | ⟨inst, a⟩ <;> cases f <;>
    simp [sessionScopeExit] <;> split <;> simp

theorem decoratedCallSC_opens_mem (t : Template) (g : Option Engine)
    (e : Engine) (spec : CallSpec) (fresh : Nat)
    (hg : resolveBind t g = some e) :
    Event.openSession fresh ∈ (decoratedCallSC t g spec fresh).trace := by
  cases ha : assignSessionSC spec.func fresh spec.selfInstance spec.kwargs with
  | error err => simp [decoratedCallSC, scopeEnter, hg, ha]
  | ok b =>
    cases b <;> cases hb : spec.bodyOutcome <;>
      simp [decoratedCallSC, scopeEnter, hg, ha, hb]

theorem decoratedCallSC_open_mem (t : Template) (g : Option Engine)
    (spec : CallSpec) (fresh i : Nat)
    (h : Event.openSession i ∈ (decoratedCallSC t g spec fresh).trace) :
    i = fresh ∧ (decoratedCallSC t g spec fresh).nextFresh = fresh + 1 := by
  cases hg : resolveBind t g with
  | none => simp [decoratedCallSC, scopeEnter, hg] at h
  | some e =>
    cases ha : assignSessionSC spec.func fresh spec.selfInstance spec.kwargs with
    | error err =>
      simp [decoratedCallSC, scopeEnter, hg, ha,
        openSession_notMem_exitEvents] at h ⊢
      omega
    | ok b =>
      cases b with
      | toKwargs argName kw =>
        cases hb : spec.bodyOutcome <;>
          · simp [decoratedCallSC, scopeEnter, hg, ha, hb,
              openSession_notMem_exitEvents] at h ⊢
            omega
      | toInstance inst1 a =>
        cases hb : spec.bodyOutcome <;>
          · simp [decoratedCallSC, scopeEnter, hg, ha, hb,
              openSession_notMem_exitEvents] at h ⊢
            omega

/-- A concrete decorated plain function used by several witnesses: one
keyword-only parameter named `db` annotated with `Session` and defaulted to
`Ellipsis`, called with no arguments, body returning a truthy value. -/
def sampleFnSpec : CallSpec :=
  ⟨⟨[("db", Ann.session)], [("db", Value.vEllipsis)]⟩, none, [],
    BodyOutcome.ret (Value.vOther true)⟩

/-- C1: a decorated call whose injection resolution succeeds and whose body
returns `V` without raising makes the wrapper return exactly `V`, commits
exactly once, never rolls back, and closes exactly once. -/
theorem c1_success_returns_value_commit_once
    (t : Template) (g : Option Engine) (e : Engine) (spec : CallSpec)
    (fresh : Nat) (b : Binding) (v : Value)
    (hg : resolveBind t g = some e)
    (ha : assignSessionSC spec.func fresh spec.selfInstance spec.kwargs = .ok b)
    (hb : spec.bodyOutcome = .ret v) :
    (decoratedCallSC t g spec fresh).result = .ok v ∧
    (decoratedCallSC t g spec fresh).trace.count Event.commit = 1 ∧
    (decoratedCallSC t g spec fresh).trace.count Event.rollback = 0 ∧
    (decoratedCallSC t g spec fresh).trace.count Event.closeSession = 1 := by
  cases b with
  | toKwargs argName kw =>
    simp [decoratedCallSC, scopeEnter, hg, ha, hb, sessionScopeExit,
      List.count_cons, List.count_nil]
  | toInstance inst1 a =>
    by_cases ht : inst1.truthy <;>
      simp [decoratedCallSC, scopeEnter, hg, ha, hb, sessionScopeExit, ht,
        List.count_cons, List.count_nil]

theorem c1_success_returns_value_commit_once_witness :
    (decoratedCallSC ⟨none⟩ (some 1) sampleFnSpec 0).result =
      .ok (Value.vOther true) ∧
    (decoratedCallSC ⟨none⟩ (some 1) sampleFnSpec 0).trace.count
      Event.commit = 1 ∧
    (decoratedCallSC ⟨none⟩ (some 1) sampleFnSpec 0).trace.count
      Event.rollback = 0 ∧
    (decoratedCallSC ⟨none⟩ (some 1) sampleFnSpec 0).trace.count
      Event.closeSession = 1 :=
  c1_success_returns_value_commit_once ⟨none⟩ (some 1) 1 sampleFnSpec 0
    (.toKwargs "db" [("db", Value.vSession 0)]) (Value.vOther true)
    rfl (by decide) rfl

/-- C4: two sequential invocations through the same decorator template,
with the session-identity allocator threaded from the first call into the
second, never open the same resource handle: each call recreates a fresh
scope from the template and obtains its own session. -/
theorem c4_sequential_calls_distinct_handles
    (t : Template) (g1 g2 : Option Engine) (sp1 sp2 : CallSpec)
    (n i j : Nat)
    (h1 : Event.openSession i ∈ (decoratedCallSC t g1 sp1 n).trace)
    (h2 : Event.openSession j ∈
      (decoratedCallSC t g2 sp2 (decoratedCallSC t g1 sp1 n).nextFresh).trace) :
    i ≠ j := by
  obtain ⟨hi, hnext⟩ := decoratedCallSC_open_mem t g1 sp1 n i h1
  obtain ⟨hj, _⟩ := decoratedCallSC_open_mem t g2 sp2 _ j h2
  rw [hi, hj, hnext]
  omega

theorem c4_sequential_calls_distinct_handles_witness :
    Event.openSession 0 ∈
      (decoratedCallSC ⟨none⟩ (some 1) sampleFnSpec 0).trace ∧
    Event.openSession 1 ∈ (decoratedCallSC ⟨none⟩ (some 1) sampleFnSpec
      (decoratedCallSC ⟨none⟩ (some 1) sampleFnSpec 0).nextFresh).trace ∧
    (0 : Nat) ≠ 1 :=
  ⟨by decide, by decide,
    c4_sequential_calls_distinct_handles ⟨none⟩ (some 1) (some 1)
      sampleFnSpec sampleFnSpec 0 0 1 (by decide) (by decide)⟩

/-- C5 counterexample: a decorated method whose callable declares exactly
one `Session`-annotated keyword-only parameter with the `Ellipsis` default,
invoked with an instance bound to `self`: parameter-first resolution would
inject into that parameter, but the code takes the instance-attribute path
(the instance declares no `Session` attribute, so the call fails with the
annotation error and the parameter is never bound). -/
theorem c5_counterexample_instance_path_wins :
    (decoratedCallSC ⟨none⟩ (some 1)
      ⟨⟨[("db", Ann.session)], [("db", Value.vEllipsis)]⟩,
        some ⟨[], [], true⟩, [], BodyOutcome.ret Value.vNone⟩ 0).result =
      .error .annotationError ∧
    Event.bindKwarg "db" 0 ∉ (decoratedCallSC ⟨none⟩ (some 1)
      ⟨⟨[("db", Ann.session)], [("db", Value.vEllipsis)]⟩,
        some ⟨[], [], true⟩, [], BodyOutcome.ret Value.vNone⟩ 0).trace := by
  decide

/-- C5 (amended): in the `session_context.py` variant, resolution is
instance-first: whenever an instance is bound to `self`, the handle goes to
the instance-attribute path even if a qualifying `Session`-annotated
keyword-only parameter exists (the parameter is never bound); the
parameter path — exactly one `Session`-annotated keyword-only parameter
with the `Ellipsis` sentinel default — is used when no instance is bound;
with no instance, declaring zero `Session`-annotated parameters or more
than one raises the annotation error. -/
theorem c5_amended_instance_first_resolution
    (t : Template) (g : Option Engine) (e : Engine) (func : FuncDecl)
    (inst : PyInstance) (kwargs : List (String × Value))
    (body : BodyOutcome) (fresh : Nat) (a b : String)
    (hg : resolveBind t g = some e)
    (hfunc : getSessionAnnotationSC func.anns = .ok b)
    (hdef : func.kwdefaults.lookup b = some Value.vEllipsis)
    (hkw : kwargs.lookup b = none)
    (hai : getSessionAnnotationSC inst.anns = .ok a)
    (hfree : inst.attrs.lookup a = none) :
    Event.bindAttr a fresh ∈
      (decoratedCallSC t g ⟨func, some inst, kwargs, body⟩ fresh).trace ∧
    (∀ n i, Event.bindKwarg n i ∉
      (decoratedCallSC t g ⟨func, some inst, kwargs, body⟩ fresh).trace) ∧
    Event.bindKwarg b fresh ∈
      (decoratedCallSC t g ⟨func, none, kwargs, body⟩ fresh).trace ∧
    (decoratedCallSC t g ⟨⟨[], []⟩, none, [], body⟩ fresh).result =
      .error .annotationError ∧
    (decoratedCallSC t g
      ⟨⟨[("u", Ann.session), ("w", Ann.session)], []⟩, none, [], body⟩
      fresh).result = .error .annotationError := by
  have hsetI : assignSessionSC func fresh (some inst) kwargs =
      .ok (.toInstance
        { inst with attrs := dictSet inst.attrs a (Value.vSession fresh) } a) := by
    simp [assignSessionSC, assignToInstanceSC, hai, hfree]
  have hsetA : assignSessionSC func fresh none kwargs =
      .ok (.toKwargs b (dictSet kwargs b (Value.vSession fresh))) := by
    simp [assignSessionSC, assignToArgumentSC, hfunc, hdef, hkw, Value.isTruthy]
  refine ⟨?_, ?_, ?_, ?_, ?_⟩
  · cases body <;>
      simp [decoratedCallSC, scopeEnter, hg, hsetI]
  · intro n i
    cases body <;>
      simp [decoratedCallSC, scopeEnter, hg, hsetI, bindKwarg_notMem_exitEvents]
  · cases body <;>
      simp [decoratedCallSC, scopeEnter, hg, hsetA]
  · simp [decoratedCallSC, scopeEnter, hg, assignSessionSC, assignToArgumentSC,
      getSessionAnnotationSC]
  · simp [decoratedCallSC, scopeEnter, hg, assignSessionSC, assignToArgumentSC,
      getSessionAnnotationSC]

theorem c5_amended_instance_first_resolution_witness :
    Event.bindAttr "session" 0 ∈ (decoratedCallSC ⟨none⟩ (some 1)
      ⟨⟨[("db", Ann.session)], [("db", Value.vEllipsis)]⟩,
        some ⟨[("session", Ann.session)], [], true⟩, [],
        BodyOutcome.ret Value.vNone⟩ 0).trace ∧
    (∀ n i, Event.bindKwarg n i ∉ (decoratedCallSC ⟨none⟩ (some 1)
      ⟨⟨[("db", Ann.session)], [("db", Value.vEllipsis)]⟩,
        some ⟨[("session", Ann.session)], [], true⟩, [],
        BodyOutcome.ret Value.vNone⟩ 0).trace) ∧
    Event.bindKwarg "db" 0 ∈ (decoratedCallSC ⟨none⟩ (some 1)
      ⟨⟨[("db", Ann.session)], [("db", Value.vEllipsis)]⟩, none, [],
        BodyOutcome.ret Value.vNone⟩ 0).trace ∧
    (decoratedCallSC ⟨none⟩ (some 1)
      ⟨⟨[], []⟩, none, [], BodyOutcome.ret Value.vNone⟩ 0).result =
      .error .annotationError ∧
    (decoratedCallSC ⟨none⟩ (some 1)
      ⟨⟨[("u", Ann.session), ("w", Ann.session)], []⟩, none, [],
        BodyOutcome.ret Value.vNone⟩ 0).result = .error .annotationError :=
  c5_amended_instance_first_resolution ⟨none⟩ (some 1) 1
    ⟨[("db", Ann.session)], [("db", Value.vEllipsis)]⟩
    ⟨[("session", Ann.session)], [], true⟩ [] (BodyOutcome.ret Value.vNone) 0
    "session" "db" rfl (by decide) rfl rfl (by decide) rfl

/-- C6: on the instance-attribute injection path, the binding-conflict
error is raised exactly when the resolved `Session`-annotated attribute is
already set on the instance at entry, and when it is raised the instance —
including the outer scope's bound attribute — is left completely
untouched. -/
theorem c6_binding_conflict_iff_attr_already_set
    (t : Template) (g : Option Engine) (e : Engine) (func : FuncDecl)
    (inst : PyInstance) (kwargs : List (String × Value))
    (body : BodyOutcome) (fresh : Nat) (a : String)
    (hg : resolveBind t g = some e)
    (ha : getSessionAnnotationSC inst.anns = .ok a) :
    ((decoratedCallSC t g ⟨func, some inst, kwargs, body⟩ fresh).result =
        .error .bindingConflictError ↔ (inst.attrs.lookup a).isSome = true) ∧
    ((inst.attrs.lookup a).isSome = true →
      (decoratedCallSC t g
        ⟨func, some inst, kwargs, body⟩ fresh).finalInstance = some inst) := by
  by_cases hset : (inst.attrs.lookup a).isSome = true
  · have hassign : assignSessionSC func fresh (some inst) kwargs =
        .error .bindingConflictError := by
      simp [assignSessionSC, assignToInstanceSC, ha, hset]
    simp [decoratedCallSC, scopeEnter, hg, hassign, hset]
  · have hfree : inst.attrs.lookup a = none := by
      cases hl : inst.attrs.lookup a
      · rfl
      · simp [hl] at hset
    have hassign : assignSessionSC func fresh (some inst) kwargs =
        .ok (.toInstance
          { inst with attrs := dictSet inst.attrs a (Value.vSession fresh) }
          a) := by
      simp [assignSessionSC, assignToInstanceSC, ha, hfree]
    cases body <;>
      simp [decoratedCallSC, scopeEnter, hg, hassign, hfree, sessionScopeExit]

theorem c6_binding_conflict_iff_attr_already_set_witness :
    ((decoratedCallSC ⟨none⟩ (some 1)
      ⟨⟨[], []⟩, some ⟨[("session", Ann.session)],
        [("session", Value.vSession 5)], true⟩, [],
        BodyOutcome.ret Value.vNone⟩ 0).result =
        .error .bindingConflictError ↔
      (([("session", Value.vSession 5)] :
        List (String × Value)).lookup "session").isSome = true) ∧
    ((([("session", Value.vSession 5)] :
        List (String × Value)).lookup "session").isSome = true →
      (decoratedCallSC ⟨none⟩ (some 1)
        ⟨⟨[], []⟩, some ⟨[("session", Ann.session)],
          [("session", Value.vSession 5)], true⟩, [],
          BodyOutcome.ret Value.vNone⟩ 0).finalInstance =
        some ⟨[("session", Ann.session)],
          [("session", Value.vSession 5)], true⟩) :=
  c6_binding_conflict_iff_attr_already_set ⟨none⟩ (some 1) 1 ⟨[], []⟩
    ⟨[("session", Ann.session)], [("session", Value.vSession 5)], true⟩ []
    (BodyOutcome.ret Value.vNone) 0 "session" rfl (by decide)

/-- C7 counterexample: the caller explicitly supplies `db=None` (a falsy
value) for the `Session`-annotated keyword parameter; the code's
truthiness check lets it through, so no direct-injection error is raised
and the caller's value is silently overwritten by the scope's handle. -/
theorem c7_counterexample_falsy_explicit_value :
    (decoratedCallSC ⟨none⟩ (some 1)
      ⟨⟨[("db", Ann.session)], [("db", Value.vEllipsis)]⟩, none,
        [("db", Value.vNone)], BodyOutcome.ret (Value.vOther true)⟩ 0).result
      = .ok (Value.vOther true) ∧
    Event.bindKwarg "db" 0 ∈ (decoratedCallSC ⟨none⟩ (some 1)
      ⟨⟨[("db", Ann.session)], [("db", Value.vEllipsis)]⟩, none,
        [("db", Value.vNone)], BodyOutcome.ret (Value.vOther true)⟩ 0).trace
    := by decide

/-- C7 (amended): on the parameter-injection path the direct-injection
error is raised exactly when the caller-supplied value for the
`Session`-annotated keyword parameter is truthy; an explicitly supplied
falsy value (such as `None`) raises nothing and is silently overwritten by
the scope's handle. -/
theorem c7_direct_injection_iff_truthy_value
    (t : Template) (g : Option Engine) (e : Engine) (func : FuncDecl)
    (kwargs : List (String × Value)) (body : BodyOutcome) (fresh : Nat)
    (a : String)
    (hg : resolveBind t g = some e)
    (hf : getSessionAnnotationSC func.anns = .ok a)
    (hdef : func.kwdefaults.lookup a = some Value.vEllipsis) :
    ((decoratedCallSC t g ⟨func, none, kwargs, body⟩ fresh).result =
        .error .directInjectionError ↔
      ((kwargs.lookup a).getD Value.vNone).isTruthy = true) ∧
    (((kwargs.lookup a).getD Value.vNone).isTruthy = false →
      Event.bindKwarg a fresh ∈
        (decoratedCallSC t g ⟨func, none, kwargs, body⟩ fresh).trace) := by
  by_cases ht : ((kwargs.lookup a).getD Value.vNone).isTruthy = true
  · have hassign : assignSessionSC func fresh none kwargs =
        .error .directInjectionError := by
      simp [assignSessionSC, assignToArgumentSC, hf, hdef, ht]
    simp [decoratedCallSC, scopeEnter, hg, hassign, ht]
  · have hassign : assignSessionSC func fresh none kwargs =
        .ok (.toKwargs a (dictSet kwargs a (Value.vSession fresh))) := by
      simp [assignSessionSC, assignToArgumentSC, hf, hdef, ht]
    cases body <;>
      simp [decoratedCallSC, scopeEnter, hg, hassign, ht, sessionScopeExit]

theorem c7_direct_injection_iff_truthy_value_witness :
    ((decoratedCallSC ⟨none⟩ (some 1)
      ⟨⟨[("db", Ann.session)], [("db", Value.vEllipsis)]⟩, none,
        [("db", Value.vNone)], BodyOutcome.ret Value.vNone⟩ 0).result =
        .error .directInjectionError ↔
      ((([("db", Value.vNone)] :
        List (String × Value)).lookup "db").getD Value.vNone).isTruthy
        = true) ∧
    (((([("db", Value.vNone)] :
        List (String × Value)).lookup "db").getD Value.vNone).isTruthy
        = false →
      Event.bindKwarg "db" 0 ∈ (decoratedCallSC ⟨none⟩ (some 1)
        ⟨⟨[("db", Ann.session)], [("db", Value.vEllipsis)]⟩, none,
          [("db", Value.vNone)], BodyOutcome.ret Value.vNone⟩ 0).trace) :=
  c7_direct_injection_iff_truthy_value ⟨none⟩ (some 1) 1
    ⟨[("db", Ann.session)], [("db", Value.vEllipsis)]⟩
    [("db", Value.vNone)] (BodyOutcome.ret Value.vNone) 0 "db"
    rfl (by decide) rfl

/-- C9 counterexample: in the `session.py` variant, a callable whose only
`Session` hint is in stringized form is resolved by
`_get_session_annotation` to the empty set — the stringized hint silently
matches nothing — and the ensuing failure (no positional argument to fall
back on) is the annotation error, not the unsupported-annotation-form
error the claim requires. -/
theorem c9_counterexample_sy_stringized_skipped :
    getSessionAnnotationSY [("db", Ann.strAnn)] = [] ∧
    assignSessionSY ⟨[("db", Ann.strAnn)], []⟩ 0 none [] =
      .error .annotationError := by decide

/-- C9 (amended): only the `session_context.py` variant guards against
deferred annotations: there, any stringized annotation on the inspected
object makes resolution raise the unsupported-annotation-form error (and a
decorated call propagates it); the `session.py` variant has no such guard
and silently skips stringized annotations. -/
theorem c9_amended_stringized_guard_sc_only
    (t : Template) (g : Option Engine) (e : Engine) (func : FuncDecl)
    (kwargs : List (String × Value)) (body : BodyOutcome) (fresh : Nat)
    (hg : resolveBind t g = some e)
    (hstr : func.anns.any (fun p => p.2 == Ann.strAnn) = true) :
    (decoratedCallSC t g ⟨func, none, kwargs, body⟩ fresh).result =
      .error .unsupportedAnnotationForm ∧
    (∀ anns2 : List (String × Ann),
      anns2.any (fun p => p.2 == Ann.strAnn) = true →
      getSessionAnnotationSC anns2 = .errStringized) ∧
    getSessionAnnotationSY [("db", Ann.strAnn)] = [] := by
  have hres : getSessionAnnotationSC func.anns = .errStringized := by
    simp [getSessionAnnotationSC, hstr]
  have hassign : assignSessionSC func fresh none kwargs =
      .error .unsupportedAnnotationForm := by
    simp [assignSessionSC, assignToArgumentSC, hres]
  refine ⟨?_, ?_, by decide⟩
  · simp [decoratedCallSC, scopeEnter, hg, hassign]
  · intro anns2 h2
    simp [getSessionAnnotationSC, h2]

theorem c9_amended_stringized_guard_sc_only_witness :
    (decoratedCallSC ⟨none⟩ (some 1)
      ⟨⟨[("db", Ann.strAnn)], []⟩, none, [],
        BodyOutcome.ret Value.vNone⟩ 0).result =
      .error .unsupportedAnnotationForm ∧
    (∀ anns2 : List (String × Ann),
      anns2.any (fun p => p.2 == Ann.strAnn) = true →
      getSessionAnnotationSC anns2 = .errStringized) ∧
    getSessionAnnotationSY [("db", Ann.strAnn)] = [] :=
  c9_amended_stringized_guard_sc_only ⟨none⟩ (some 1) 1
    ⟨[("db", Ann.strAnn)], []⟩ [] (BodyOutcome.ret Value.vNone) 0
    rfl (by decide)

/-- C8: with no explicit provider in the template and the process-wide
default engine unset, entering the scope (as a block via `scopeEnter` or
through a decorated call) raises the configuration error with an empty
event trace, so no session is ever constructed; and the very same template
entered later with the default engine set does open a session, showing the
default-provider slot is read at enter time rather than captured at
decoration time. -/
theorem c8_provider_unset_configuration_error
    (t : Template) (spec spec2 : CallSpec) (fresh : Nat) (e : Engine)
    (hb : t.bindArg = none) :
    (decoratedCallSC t none spec fresh).result = .error .configurationError ∧
    (decoratedCallSC t none spec fresh).trace = [] ∧
    scopeEnter t none fresh = (.error .configurationError, []) ∧
    Event.openSession fresh ∈ (decoratedCallSC t (some e) spec2 fresh).trace := by
  refine ⟨?_, ?_, ?_, ?_⟩
  · simp [decoratedCallSC, scopeEnter, resolveBind, hb]
  · simp [decoratedCallSC, scopeEnter, resolveBind, hb]
  · simp [scopeEnter, resolveBind, hb]
  · exact decoratedCallSC_opens_mem t (some e) e spec2 fresh
      (by simp [resolveBind, hb])

/-- C2 counterexample: a decorated-method call on a falsy instance
(`bool(instance)` is `False`) whose body raises: the wrapper re-raises the
body's exception, yet the bound session attribute is still set on the
instance afterwards, so the claim's unconditional "the attribute is absent
by the time the wrapper returns or raises" fails on the code. -/
theorem c2_counterexample_falsy_instance :
    (decoratedCallSC ⟨none⟩ (some 1)
      ⟨⟨[], []⟩, some ⟨[("session", Ann.session)], [], false⟩, [],
        BodyOutcome.raiseExc 7⟩ 0).result = .error (.bodyError 7) ∧
    (decoratedCallSC ⟨none⟩ (some 1)
      ⟨⟨[], []⟩, some ⟨[("session", Ann.session)], [], false⟩, [],
        BodyOutcome.raiseExc 7⟩ 0).finalInstance.map
      (fun i => i.attrs.lookup "session") = some (some (Value.vSession 0)) := by
  decide

/-- C2 (amended): for every decorated-method call whose session was bound
to an instance attribute, where the bound instance is truthy and the body
raises `Err`: the bound attribute is deleted strictly before the factory's
finalize runs (the trace is exactly open, bind, unbind, rollback, close,
so rollback runs exactly once and the unbind precedes it), the instance is
returned to exactly its pre-call state (the attribute absent), and the
same exception propagates unchanged. -/
theorem c2_amended_truthy_instance_exception
    (t : Template) (g : Option Engine) (e : Engine) (func : FuncDecl)
    (inst : PyInstance) (kwargs : List (String × Value)) (fresh c : Nat)
    (a : String)
    (hg : resolveBind t g = some e)
    (ha : getSessionAnnotationSC inst.anns = .ok a)
    (hfree : inst.attrs.lookup a = none)
    (htruthy : inst.truthy = true) :
    (decoratedCallSC t g ⟨func, some inst, kwargs, .raiseExc c⟩ fresh).trace =
      [Event.openSession fresh, Event.bindAttr a fresh, Event.unbindAttr a,
        Event.rollback, Event.closeSession] ∧
    (decoratedCallSC t g ⟨func, some inst, kwargs, .raiseExc c⟩ fresh).result =
      .error (.bodyError c) ∧
    (decoratedCallSC t g
      ⟨func, some inst, kwargs, .raiseExc c⟩ fresh).finalInstance =
      some inst := by
  have hset : assignSessionSC func fresh (some inst) kwargs =
      .ok (.toInstance
        { inst with attrs := dictSet inst.attrs a (Value.vSession fresh) } a) := by
    simp [assignSessionSC, assignToInstanceSC, ha, hfree]
  simp [decoratedCallSC, scopeEnter, hg, hset, sessionScopeExit, htruthy,
    dictDel_dictSet_of_lookup_none inst.attrs a (Value.vSession fresh) hfree]
  rw [← htruthy]

theorem c2_amended_truthy_instance_exception_witness :
    (decoratedCallSC ⟨none⟩ (some 1)
      ⟨⟨[], []⟩, some ⟨[("session", Ann.session)], [], true⟩, [],
        .raiseExc 7⟩ 0).trace =
      [Event.openSession 0, Event.bindAttr "session" 0,
        Event.unbindAttr "session", Event.rollback, Event.closeSession] ∧
    (decoratedCallSC ⟨none⟩ (some 1)
      ⟨⟨[], []⟩, some ⟨[("session", Ann.session)], [], true⟩, [],
        .raiseExc 7⟩ 0).result = .error (.bodyError 7) ∧
    (decoratedCallSC ⟨none⟩ (some 1)
      ⟨⟨[], []⟩, some ⟨[("session", Ann.session)], [], true⟩, [],
        .raiseExc 7⟩ 0).finalInstance =
      some ⟨[("session", Ann.session)], [], true⟩ :=
  c2_amended_truthy_instance_exception ⟨none⟩ (some 1) 1 ⟨[], []⟩
    ⟨[("session", Ann.session)], [], true⟩ [] 0 7 "session"
    rfl (by decide) rfl rfl

/-- C3 counterexample: a decorated call that fails injection resolution
(here the annotation error: no `Session`-annotated parameter and no
instance) still opens a resource handle first — the error is raised inside
the already-entered scope, not before acquisition, so the claim's "no
resource handle is ever opened for that call" fails on the code. -/
theorem c3_counterexample_open_before_resolution_error :
    (decoratedCallSC ⟨none⟩ (some 1)
      ⟨⟨[], []⟩, none, [], BodyOutcome.ret Value.vNone⟩ 0).result =
      .error .annotationError ∧
    Event.openSession 0 ∈ (decoratedCallSC ⟨none⟩ (some 1)
      ⟨⟨[], []⟩, none, [], BodyOutcome.ret Value.vNone⟩ 0).trace := by
  decide

/-- C3 (amended): a decorated call that fails injection resolution raises
the resolution error to the caller, but only after the factory's
acquisition phase has run: the handle is opened first, and the raised
error then drives exactly one rollback and one close of that
already-opened handle before propagating (the trace is exactly open,
rollback, close — nothing leaks, the body never runs). -/
theorem c3_amended_resolution_error_after_acquisition
    (t : Template) (g : Option Engine) (e : Engine) (spec : CallSpec)
    (fresh : Nat) (err : Err)
    (hg : resolveBind t g = some e)
    (ha : assignSessionSC spec.func fresh spec.selfInstance spec.kwargs =
      .error err) :
    (decoratedCallSC t g spec fresh).result = .error err ∧
    (decoratedCallSC t g spec fresh).trace =
      [Event.openSession fresh, Event.rollback, Event.closeSession] := by
  simp [decoratedCallSC, scopeEnter, hg, ha, sessionScopeExit]

theorem c3_amended_resolution_error_after_acquisition_witness :
    (decoratedCallSC ⟨none⟩ (some 1)
      ⟨⟨[], []⟩, none, [], BodyOutcome.ret Value.vNone⟩ 0).result =
      .error .annotationError ∧
    (decoratedCallSC ⟨none⟩ (some 1)
      ⟨⟨[], []⟩, none, [], BodyOutcome.ret Value.vNone⟩ 0).trace =
      [Event.openSession 0, Event.rollback, Event.closeSession] :=
  c3_amended_resolution_error_after_acquisition ⟨none⟩ (some 1) 1
    ⟨⟨[], []⟩, none, [], BodyOutcome.ret Value.vNone⟩ 0 .annotationError
    rfl (by decide)

/-- C10: when the session was bound to an instance attribute and the bound
instance itself is falsy, the exit path skips clearing the attribute: no
unbind event is ever emitted and, whether the body returns or raises, the
closed session is still set on the instance after the wrapper finishes. -/
theorem c10_falsy_instance_skips_attribute_release
    (t : Template) (g : Option Engine) (e : Engine) (func : FuncDecl)
    (inst : PyInstance) (kwargs : List (String × Value))
    (body : BodyOutcome) (fresh : Nat) (a : String)
    (hg : resolveBind t g = some e)
    (ha : getSessionAnnotationSC inst.anns = .ok a)
    (hfree : inst.attrs.lookup a = none)
    (hfalsy : inst.truthy = false) :
    (decoratedCallSC t g ⟨func, some inst, kwargs, body⟩ fresh).finalInstance =
      some { inst with attrs := dictSet inst.attrs a (Value.vSession fresh) } ∧
    (∀ n, Event.unbindAttr n ∉
      (decoratedCallSC t g ⟨func, some inst, kwargs, body⟩ fresh).trace) ∧
    (dictSet inst.attrs a (Value.vSession fresh)).lookup a =
      some (Value.vSession fresh) := by
  have hset : assignSessionSC func fresh (some inst) kwargs =
      .ok (.toInstance
        { inst with attrs := dictSet inst.attrs a (Value.vSession fresh) } a) := by
    simp [assignSessionSC, assignToInstanceSC, ha, hfree]
  cases body <;>
    simp [decoratedCallSC, scopeEnter, hg, hset, sessionScopeExit, hfalsy,
      lookup_dictSet_self]

theorem c10_falsy_instance_skips_attribute_release_witness :
    (decoratedCallSC ⟨none⟩ (some 1)
      ⟨⟨[], []⟩, some ⟨[("session", Ann.session)], [], false⟩, [],
        BodyOutcome.raiseExc 9⟩ 0).finalInstance =
      some ⟨[("session", Ann.session)], [("session", Value.vSession 0)],
        false⟩ ∧
    (∀ n, Event.unbindAttr n ∉ (decoratedCallSC ⟨none⟩ (some 1)
      ⟨⟨[], []⟩, some ⟨[("session", Ann.session)], [], false⟩, [],
        BodyOutcome.raiseExc 9⟩ 0).trace) ∧
    (dictSet [] "session" (Value.vSession 0)).lookup "session" =
      some (Value.vSession 0) :=
  c10_falsy_instance_skips_attribute_release ⟨none⟩ (some 1) 1 ⟨[], []⟩
    ⟨[("session", Ann.session)], [], false⟩ [] (BodyOutcome.raiseExc 9) 0
    "session" rfl (by decide) rfl rfl

theorem c8_provider_unset_configuration_error_witness :
    (decoratedCallSC ⟨none⟩ none
      ⟨⟨[], []⟩, none, [], BodyOutcome.ret Value.vNone⟩ 0).result =
      .error .configurationError ∧
    (decoratedCallSC ⟨none⟩ none
      ⟨⟨[], []⟩, none, [], BodyOutcome.ret Value.vNone⟩ 0).trace = [] ∧
    scopeEnter ⟨none⟩ none 0 = (.error .configurationError, []) ∧
    Event.openSession 0 ∈ (decoratedCallSC ⟨none⟩ (some 7)
      ⟨⟨[], []⟩, none, [], BodyOutcome.ret Value.vNone⟩ 0).trace :=
  c8_provider_unset_configuration_error ⟨none⟩ _ _ 0 7 rfl
